import Mathlib

/-!
Verification development for the `minecraft_server_aws` operational scripts.
The Python sources are shallowly embedded: every external interaction
(subprocess, SSH, HTTP, Docker socket) is represented by an explicit outcome
value fed to the embedded function, floats are modelled as exact rationals,
Python exceptions as `Except`, and Python `None` as `Option`.  Each embedded
definition mirrors one function of the repository, keeping its name.
-/

/- ## Python string primitives
Python `str.strip`, `str.split('\n')` and the substring operator `in` are
modelled on the character lists underlying `String`. -/

/-- Python `str.strip()`: drop leading and trailing whitespace characters. -/
def trimChars (l : List Char) : List Char :=
  ((l.dropWhile Char.isWhitespace).reverse.dropWhile Char.isWhitespace).reverse

/-- Python `str.strip()` on `String`. -/
def pyStrip (s : String) : String := String.mk (trimChars s.data)

/-- Python `str.split(sep)` for a single-character separator. -/
def splitOnChar (sep : Char) : List Char → List (List Char)
  | [] => [[]]
  | c :: cs =>
    match splitOnChar sep cs with
    | [] => [[]]
    | r :: rs => if c = sep then [] :: r :: rs else (c :: r) :: rs

/-- Python `s.split('\n')` on `String`. -/
def pySplitLines (s : String) : List String :=
  (splitOnChar '\n' s.data).map String.mk

/-- Python substring containment `needle in hay`. -/
def pyIn (needle hay : String) : Bool := decide (needle.data <:+: hay.data)

/-- Python truthiness of an optional string (`None` and `""` are falsy). -/
def pyTruthy : Option String → Bool
  | none => false
  | some s => s != ""

/- ## Remote Command Runner (`prefect/utils/server_utils.py`, `run_ssh_command`)
`subprocess.run` is modelled by an outcome value: the process completed with
an exit status and output, the timeout expired, or the invocation itself
raised an exception. -/

/-- Result of one remote command: exit status, captured output, success flag
(`RemoteCommandResult` of the data model). -/
structure RemoteCommandResult where
  returncode : Int
  stdout : String
  stderr : String
  success : Bool
  deriving Repr, DecidableEq

/-- Possible outcomes of the underlying `subprocess.run` call. -/
inductive SubprocessOutcome where
  | completed (returncode : Int) (stdout stderr : String)
  | timedout
  | exn (msg : String)
  deriving Repr, DecidableEq

/-- `run_ssh_command`: wraps the subprocess outcome into a
`RemoteCommandResult`; a timeout or an exception becomes a failure result
with synthetic exit code `-1`, and is never re-raised. -/
def run_ssh_command (outcome : SubprocessOutcome) (timeout : Nat) : RemoteCommandResult :=
  match outcome with
  | .completed rc out err => ⟨rc, out, err, rc == 0⟩
  | .timedout => ⟨-1, "",
      "Command timed out after " ++ toString timeout ++ " seconds", false⟩
  | .exn m => ⟨-1, "", m, false⟩

/- ## Size conversions (C6)
Python floats are modelled as exact rationals; `round(x, 2)` is modelled as
round-half-to-even at two decimals, Python's rounding mode. -/

/-- Python `round(q, 2)`: round half to even at two decimal places. -/
def pyRound2 (q : ℚ) : ℚ :=
  let f : ℤ := ⌊q * 100⌋
  let r : ℚ := q * 100 - f
  (if r < 1/2 then (f : ℚ)
   else if r > 1/2 then (f : ℚ) + 1
   else if f % 2 = 0 then (f : ℚ) else (f : ℚ) + 1) / 100

/-- `get_directory_size` size computation (`server_utils.py`): bytes to GB,
rounded to two decimals. -/
def get_directory_size_gb (totalSize : ℕ) : ℚ :=
  pyRound2 ((totalSize : ℚ) / (1024 * 1024 * 1024))

/-- `get_system_metrics` (`server_monitoring_flow.py`): bytes to MB, rounded
to two decimals. -/
def monitoring_bytes_to_mb (bytes : ℚ) : ℚ := pyRound2 (bytes / (1024 * 1024))

/-- `get_system_metrics` (`server_monitoring_flow.py`): bytes to GB, rounded
to two decimals. -/
def monitoring_bytes_to_gb (bytes : ℚ) : ℚ := pyRound2 (bytes / (1024 * 1024 * 1024))

/-- `get_minecraft_metrics` (`metrics_api/simple_fix.py`): world size bytes to
MB, unrounded. -/
def simple_fix_world_size_mb (worldSize : ℕ) : ℚ := (worldSize : ℚ) / (1024 * 1024)

/-- `get_minecraft_metrics` (`metrics_api/simple_fix.py`): world size bytes to
GB, unrounded. -/
def simple_fix_world_size_gb (worldSize : ℕ) : ℚ := (worldSize : ℚ) / (1024 * 1024 * 1024)

/- ## Container Status Resolver (`server_utils.py`, `check_container_status`)
Every external probe the function may perform is an explicit outcome in the
environment; the returned effect list records which probes were attempted. -/

/-- External interactions the embedded functions can attempt. -/
inductive Effect where
  | dockerPs
  | sshCommand
  | httpGet
  | dateCmd
  deriving Repr, DecidableEq

/-- True for the effects that reach out to remote infrastructure or the
container engine; the local `date` subprocess is not one of them. -/
def Effect.isRemoteCall : Effect → Bool
  | .dockerPs => true
  | .sshCommand => true
  | .httpGet => true
  | .dateCmd => false

/-- Parse container names from `docker ps --format` output exactly as the
source does: strip the output, split on newlines, strip each line, drop
empty lines. -/
def parseNames (stdout : String) : List String :=
  ((pySplitLines (pyStrip stdout)).map pyStrip).filter (fun n => n != "")

/-- Exact-name decision of the Docker-socket paths:
`any(name == container_name for name in container_names)`. -/
def exactNameRunning (stdout containerName : String) : Bool :=
  (parseNames stdout).any (fun n => n == containerName)

/-- One direct Docker-socket query: `some` carries the exact-match decision
when the query completed with exit code 0; `none` models a non-zero exit or
a raised exception (both logged and not conclusive at the first call site). -/
def dockerSocketDecision (containerName : String)
    (outcome : Option (Int × String × String)) : Option Bool :=
  match outcome with
  | some (rc, out, _) => if rc == 0 then some (exactNameRunning out containerName) else none
  | none => none

/-- An apostrophe character, kept out of string literals. -/
def apos : String := String.mk [Char.ofNat 39]

/-- The stderr marker the source looks for when the SSH client binary is
missing: `No such file or directory: 'ssh'`. -/
def missingSshMarker : String :=
  "No such file or directory: " ++ apos ++ "ssh" ++ apos

/-- The relevant keys of the `ssh_config` dictionary; `none` for the whole

structure models both a `None` argument and an empty (falsy) dictionary. -/
structure SshCfg where
  ec2Host : Option String
  sshUser : Option String
  sshPort : Option String
  deriving Repr, DecidableEq

/-- Environment of one `check_container_status` call: its arguments plus the
outcome of every external probe it may perform. A `none` docker outcome
models the invocation raising an exception. -/
structure ContainerCheckEnv where
  simulatedMode : Bool
  host : Option String
  user : Option String
  sshConfig : Option SshCfg
  dockerSockExists : Bool
  dockerDirect : Option (Int × String × String)
  sshOutcome : SubprocessOutcome
  dockerFallback : Option (Int × String × String)
  dockerLocal : Option (Int × String × String)
  deriving Repr, DecidableEq

/-- `check_container_status`: simulated mode short-circuits to `True`; else a
direct Docker-socket check for a localhost target, an SSH check when remote
parameters are present (with a socket fallback plus assume-running last
resort when the SSH client itself is missing), else a local Docker check. -/
def check_container_status (containerName : String) (env : ContainerCheckEnv) :
    Bool × List Effect :=
  if env.simulatedMode then (true, [])
  else
    let localhostTarget : Bool :=
      env.host == some "localhost" ||
        (match env.sshConfig with
         | some c => c.ec2Host == some "localhost"
         | none => false)
    let tryDirect : Bool := localhostTarget && env.dockerSockExists
    let directEffects : List Effect := if tryDirect then [.dockerPs] else []
    match (if tryDirect then dockerSocketDecision containerName env.dockerDirect else none) with
    | some running => (running, directEffects)
    | none =>
      if pyTruthy env.host ||
          (match env.sshConfig with
           | some c => pyTruthy c.ec2Host
           | none => false) then
        let host := match env.sshConfig with
          | some c => match c.ec2Host with
            | some h => some h
            | none => env.host
          | none => env.host
        let user := match env.sshConfig with
          | some c => match c.sshUser with
            | some u => some u
            | none => env.user
          | none => env.user
        if !(pyTruthy host) || !(pyTruthy user) then (false, directEffects)
        else
          let result := run_ssh_command env.sshOutcome 15
          let effects := directEffects ++ [.sshCommand]
          if pyIn missingSshMarker result.stderr then
            let fbEffects := effects ++ (if env.dockerSockExists then [Effect.dockerPs] else [])
            match (if env.dockerSockExists then
                dockerSocketDecision containerName env.dockerFallback else none) with
            | some running => (running, fbEffects)
            | none => (true, fbEffects)
          else
            (result.success && pyIn containerName result.stdout, effects)
      else
        ((dockerSocketDecision containerName env.dockerLocal).getD false,
          directEffects ++ [.dockerPs])

/- ## RemoteExecutor (`prefect/flows/remote_executor.py`) -/

/-- Outcome of one `exec_command` on the paramiko channel: completion with an
exit status, or a raised exception. -/
inductive ExecOutcome where
  | completed (exitCode : Int) (stdout stderr : String)
  | exn (msg : String)
  deriving Repr, DecidableEq

/-- `RemoteExecutor.execute_command`: returns `(exit_code, stdout, stderr)`;
an exception is caught and becomes `(1, "", message)`. -/
def RemoteExecutor.execute_command (o : ExecOutcome) : Int × String × String :=
  match o with
  | .completed rc out err => (rc, out, err)
  | .exn m => (1, "", m)

/-- `RemoteExecutor.check_docker_container`: running iff the command exited 0
and the container name occurs in the stripped stdout (substring test). -/
def RemoteExecutor.check_docker_container (containerName : String) (o : ExecOutcome) : Bool :=
  let r := RemoteExecutor.execute_command o
  if r.1 != 0 then false
  else pyIn containerName (pyStrip r.2.1)

/- ## Monitoring flow (`prefect/flows/server_monitoring_flow.py`)
HTTP calls are modelled by outcome values; a malformed JSON body (missing
key, uncoercible type) would raise in the source and is modelled by the
exception outcome. -/

/-- The `minecraft` sub-record of a metrics snapshot. -/
structure MinecraftStats where
  cpu_percent : String
  mem_usage : String
  mem_percent : String
  deriving Repr, DecidableEq

/-- The `system` sub-record of a metrics snapshot; conditionally present
fields are `Option`s. -/
structure SystemStats where
  cpu_percent : ℚ
  memory_percent : ℚ
  memory_used_mb : ℚ
  memory_total_mb : ℚ
  root_disk_percent : ℚ
  root_disk_used_gb : ℚ
  root_disk_total_gb : ℚ
  data_disk_percent : Option ℚ
  data_disk_used_gb : Option ℚ
  data_disk_total_gb : Option ℚ
  load_avg_1min : Option ℚ
  load_avg_5min : Option ℚ
  load_avg_15min : Option ℚ
  deriving Repr, DecidableEq

/-- One metrics snapshot as assembled by `get_system_metrics`. -/
structure MetricsOut where
  timestamp : String
  system : SystemStats
  minecraft : Option MinecraftStats
  error : Option String
  deriving Repr, DecidableEq

/-- The fixed simulated `system` schema of `get_system_metrics`
(`server_monitoring_flow.py`, simulated branch). Fields in order:
cpu 22.1, memory 76.7 percent, 571 of 744 MB, root disk 13.8 percent,
5.5 of 40.0 GB, no data disk, load averages 0.17 / 0.13 / 0.06. -/
def simulatedSystemStats : SystemStats :=
  ⟨22.1, 76.7, 571, 744, 13.8, 5.5, 40.0,
    none, none, none, some 0.17, some 0.13, some 0.06⟩

/-- The fixed simulated `minecraft` schema of `get_system_metrics`. -/
def simulatedMinecraftStats : MinecraftStats :=
  ⟨"2.15%", "512MiB / 1GiB", "50.0%"⟩

/-- The all-zero default `system` schema produced when metrics collection
fails. -/
def zeroSystemStats : SystemStats :=
  ⟨0, 0, 0, 0, 0, 0, 0, none, none, none, none, none, none⟩

/-- Well-typed body of a `/api/v1/system/metrics` response: cpu usage
percent, memory used/total bytes and used percent, root disk used percent
and used/total bytes, optional data disk (percent, used, total) and load
averages (1, 5, 15 min). -/
structure SystemApiBody where
  cpu_usage_percent : ℚ
  memory_used : ℚ
  memory_total : ℚ
  memory_used_percent : ℚ
  disk_root_used_percent : ℚ
  disk_root_used : ℚ
  disk_root_total : ℚ
  disk_data : Option (ℚ × ℚ × ℚ)
  load_avg : Option (ℚ × ℚ × ℚ)
  deriving Repr, DecidableEq

/-- Well-typed body of a `/api/v1/minecraft/metrics` response. -/
structure MinecraftApiBody where
  status : String
  cpu_percent : Option String
  memory_usage : Option String
  memory_percent : Option String
  world_size_gb : Option ℚ
  deriving Repr, DecidableEq

/-- Outcome of one HTTP GET: a response with status code and body, or a
raised exception (connection error, request timeout, malformed body). -/
inductive HttpOutcome (β : Type) where
  | resp (status : ℕ) (body : β)
  | exn (msg : String)
  deriving Repr, DecidableEq

/-- `get_system_metrics` (API variant): simulated mode returns the fixed
schema with no request; otherwise both GETs are issued up front, a non-200
system response raises internally, and every exception is caught into the
all-zero default schema with the `error` field set to the description. -/
def get_system_metrics (simulatedMode : Bool) (now : String)
    (systemResp : HttpOutcome SystemApiBody)
    (minecraftResp : HttpOutcome MinecraftApiBody) : MetricsOut × List Effect :=
  if simulatedMode then
    (⟨now, simulatedSystemStats, some simulatedMinecraftStats, none⟩, [])
  else
    match systemResp with
    | .exn m => (⟨now, zeroSystemStats, none, some m⟩, [.httpGet])
    | .resp sStatus sBody =>
      match minecraftResp with
      | .exn m => (⟨now, zeroSystemStats, none, some m⟩, [.httpGet, .httpGet])
      | .resp mStatus mBody =>
        if sStatus ≠ 200 then
          (⟨now, zeroSystemStats, none, some ("API error: " ++ toString sStatus)⟩,
            [.httpGet, .httpGet])
        else
          let system : SystemStats :=
            ⟨sBody.cpu_usage_percent, sBody.memory_used_percent,
              monitoring_bytes_to_mb sBody.memory_used,
              monitoring_bytes_to_mb sBody.memory_total,
              sBody.disk_root_used_percent,
              monitoring_bytes_to_gb sBody.disk_root_used,
              monitoring_bytes_to_gb sBody.disk_root_total,
              sBody.disk_data.map (fun d => d.1),
              sBody.disk_data.map (fun d => monitoring_bytes_to_gb d.2.1),
              sBody.disk_data.map (fun d => monitoring_bytes_to_gb d.2.2),
              sBody.load_avg.map (fun l => l.1),
              sBody.load_avg.map (fun l => l.2.1),
              sBody.load_avg.map (fun l => l.2.2)⟩
          let minecraft : Option MinecraftStats :=
            if mStatus == 200 && mBody.status == "running" then
              some ⟨mBody.cpu_percent.getD "0%", mBody.memory_usage.getD "0B / 0B",
                mBody.memory_percent.getD "0%"⟩
            else none
          (⟨now, system, minecraft, none⟩, [.httpGet, .httpGet])

/-- `check_server_status` (API variant): simulated mode reports running; a
non-200 response or an exception falls back to running to avoid false
alarms. -/
def check_server_status_api (simulatedMode : Bool)
    (resp : HttpOutcome MinecraftApiBody) : Bool × List Effect :=
  if simulatedMode then (true, [])
  else
    match resp with
    | .exn _ => (true, [.httpGet])
    | .resp status body =>
      if status == 200 then (body.status == "running", [.httpGet])
      else (true, [.httpGet])

/-- `get_world_size`: simulated mode returns 12.75 GB; otherwise a non-200
response, a missing `world_size_gb` field, and a raised exception all fall
back to the constant 12.75 GB. The `Optional[float]` signature is the
`Option`; no branch of the source produces `None`. -/
def get_world_size (simulatedMode : Bool)
    (resp : HttpOutcome MinecraftApiBody) : Option ℚ × List Effect :=
  if simulatedMode then (some 12.75, [])
  else
    match resp with
    | .exn _ => (some 12.75, [.httpGet])
    | .resp status body =>
      if status ≠ 200 then (some 12.75, [.httpGet])
      else
        match body.world_size_gb with
        | some v => (some v, [.httpGet])
        | none => (some 12.75, [.httpGet])

/-- `send_metrics_to_discord`, at the granularity the flow observes: a falsy
webhook URL skips delivery, every exception is caught, and the task returns
a boolean; the payload formatting cannot raise out of the task. -/
def send_metrics_to_discord (webhookUrl : String) (delivered : Bool) : Bool :=
  if webhookUrl == "" then false else delivered

/-- Steps of the monitoring flow, in invocation order. -/
inductive MonStep where
  | healthCheck
  | checkStatus
  | getMetrics
  | getWorldSize
  | sendDiscord
  deriving Repr, DecidableEq

/-- Environment of one `server_monitoring_flow` run: the mode flags and the
outcome of every HTTP interaction the run may perform. -/
structure MonitoringEnv where
  simulatedMode : Bool
  now : String
  statusResp : HttpOutcome MinecraftApiBody
  systemResp : HttpOutcome SystemApiBody
  minecraftResp : HttpOutcome MinecraftApiBody
  worldResp : HttpOutcome MinecraftApiBody
  webhookEnabled : Bool
  webhookUrl : String
  notifyDelivered : Bool
  deriving Repr, DecidableEq

/-- Result of one monitoring flow run. -/
structure MonitoringRun where
  status : String
  serverRunning : Bool
  metrics : MetricsOut
  worldSize : Option ℚ
  notified : Bool
  steps : List MonStep
  deriving Repr, DecidableEq

/-- `server_monitoring_flow`: health probe (its own failure only logged),
status check, metrics collection, world size, then the Discord notification
when `DISCORD_WEBHOOK_ENABLED` is true. None of the embedded tasks raises,
so the surrounding `try` always returns SUCCESS. -/
def server_monitoring_flow (env : MonitoringEnv) : MonitoringRun :=
  let serverRunning := (check_server_status_api env.simulatedMode env.statusResp).1
  let metrics := (get_system_metrics env.simulatedMode env.now env.systemResp
    env.minecraftResp).1
  let worldSize := (get_world_size env.simulatedMode env.worldResp).1
  let baseSteps : List MonStep := [.healthCheck, .checkStatus, .getMetrics, .getWorldSize]
  if env.webhookEnabled then
    ⟨"SUCCESS", serverRunning, metrics, worldSize,
      send_metrics_to_discord env.webhookUrl env.notifyDelivered,
      baseSteps ++ [.sendDiscord]⟩
  else
    ⟨"SUCCESS", serverRunning, metrics, worldSize, false, baseSteps⟩

/- ## Remote metrics collector (`server_utils.py`, `get_system_metrics_remote`)

The timestamp comes from a local `date` subprocess invoked before anything
else, in both modes. Each of the five SSH probes is modelled by a probe
outcome: the command failed (success flag False, the field group silently
skipped), or its output parsed to a typed value, or parsing raised (the
surrounding `except` then sets `error` and returns the metrics built so
far). The docker-stats probe's textual processing cannot raise and is
embedded directly on its stdout string. -/

/-- Python `round(q, 1)`: round half to even at one decimal place, as used
for the remote memory percentage. -/
def pyRound1 (q : ℚ) : ℚ :=
  let f : ℤ := ⌊q * 10⌋
  let r : ℚ := q * 10 - f
  (if r < 1/2 then (f : ℚ)
   else if r > 1/2 then (f : ℚ) + 1
   else if f % 2 = 0 then (f : ℚ) else (f : ℚ) + 1) / 10

/-- Outcome of one numeric SSH probe of `get_system_metrics_remote`. -/
inductive ProbeOutcome (α : Type) where
  | failed
  | parsed (v : α)
  | malformed (msg : String)
  deriving Repr, DecidableEq

/-- The `system` sub-record of the remote metrics snapshot; every field is
set only when its probe succeeded, and the disk totals stay the raw `df`
strings. -/
structure RemoteSystemStats where
  cpu_percent : Option ℚ
  memory_percent : Option ℚ
  memory_used_mb : Option ℤ
  memory_total_mb : Option ℤ
  root_disk_percent : Option ℚ
  root_disk_total_gb : Option String
  root_disk_used_gb : Option String
  load_avg_1min : Option ℚ
  load_avg_5min : Option ℚ
  load_avg_15min : Option ℚ
  deriving Repr, DecidableEq

/-- One remote metrics snapshot; `error` is `none` both for the simulated
branch (no key) and for the non-simulated initial `None`. -/
structure RemoteMetricsOut where
  timestamp : String
  system : RemoteSystemStats
  minecraft : Option MinecraftStats
  error : Option String
  deriving Repr, DecidableEq

/-- The fixed simulated `system` schema of `get_system_metrics_remote`
(`server_utils.py` lines 299-318): cpu 5.2, memory 32.5 percent, 5324 of
16384 MB, root disk 18.7 percent, "100G" total and "18.7G" used, load
averages 0.42 / 0.39 / 0.35. -/
def simulatedRemoteSystemStats : RemoteSystemStats :=
  ⟨some 5.2, some 32.5, some 5324, some 16384, some 18.7, some "100G", some "18.7G",
    some 0.42, some 0.39, some 0.35⟩

/-- The fixed simulated `minecraft` schema of `get_system_metrics_remote`. -/
def simulatedRemoteMinecraftStats : MinecraftStats :=
  ⟨"1.22%", "685.5MiB / 15.63GiB", "4.11%"⟩

/-- The docker-stats post-processing of `get_system_metrics_remote`: with a
successful command and non-empty stdout, split the stripped output on
commas and, when at least four parts exist, take parts 1-3 stripped. -/
def dockerMinecraft (probe : Option String) : Option MinecraftStats :=
  match probe with
  | none => none
  | some out =>
    if trimChars out.data = [] then none
    else
      match (splitOnChar ',' (trimChars out.data)).map String.mk with
      | _ :: p1 :: p2 :: p3 :: _ => some ⟨pyStrip p1, pyStrip p2, pyStrip p3⟩
      | _ => none

/-- `get_system_metrics_remote`: the simulated branch returns the fixed
schema after the `date` subprocess; otherwise the five probes run in order
(cpu, memory, disk, load average, docker stats), a failed probe skips its
fields, a parse exception aborts with `error` set (as does the
division-by-zero on a zero memory total), and each attempted probe costs
one SSH call. -/
def get_system_metrics_remote (simulatedMode : Bool) (dateOut : String)
    (cpuProbe : ProbeOutcome ℚ) (memProbe : ProbeOutcome (ℤ × ℤ))
    (diskProbe : ProbeOutcome (ℚ × String × String))
    (loadProbe : ProbeOutcome (ℚ × ℚ × ℚ)) (dockerProbe : Option String) :
    RemoteMetricsOut × List Effect :=
  if simulatedMode then
    (⟨dateOut, simulatedRemoteSystemStats, some simulatedRemoteMinecraftStats, none⟩,
      [.dateCmd])
  else
    let cpuStep : Except String (Option ℚ) :=
      match cpuProbe with
      | .malformed m => .error m
      | .failed => .ok none
      | .parsed v => .ok (some v)
    let memStep : Except String (Option ℚ × Option ℤ × Option ℤ) :=
      match memProbe with
      | .malformed m => .error m
      | .failed => .ok (none, none, none)
      | .parsed (used, total) =>
        if total = 0 then .error "division by zero"
        else .ok (some (pyRound1 ((used : ℚ) / (total : ℚ) * 100)), some used, some total)
    let diskStep : Except String (Option ℚ × Option String × Option String) :=
      match diskProbe with
      | .malformed m => .error m
      | .failed => .ok (none, none, none)
      | .parsed (percent, total, used) => .ok (some percent, some total, some used)
    let loadStep : Except String (Option ℚ × Option ℚ × Option ℚ) :=
      match loadProbe with
      | .malformed m => .error m
      | .failed => .ok (none, none, none)
      | .parsed (l1, l5, l15) => .ok (some l1, some l5, some l15)
    match cpuStep with
    | .error m =>
      (⟨dateOut, ⟨none, none, none, none, none, none, none, none, none, none⟩,
        none, some m⟩, [.dateCmd, .sshCommand])
    | .ok cpuF =>
      match memStep with
      | .error m =>
        (⟨dateOut, ⟨cpuF, none, none, none, none, none, none, none, none, none⟩,
          none, some m⟩, [.dateCmd, .sshCommand, .sshCommand])
      | .ok (memP, memU, memT) =>
        match diskStep with
        | .error m =>
          (⟨dateOut, ⟨cpuF, memP, memU, memT, none, none, none, none, none, none⟩,
            none, some m⟩, [.dateCmd, .sshCommand, .sshCommand, .sshCommand])
        | .ok (dkP, dkT, dkU) =>
          match loadStep with
          | .error m =>
            (⟨dateOut, ⟨cpuF, memP, memU, memT, dkP, dkT, dkU, none, none, none⟩,
              none, some m⟩,
              [.dateCmd, .sshCommand, .sshCommand, .sshCommand, .sshCommand])
          | .ok (l1, l5, l15) =>
            (⟨dateOut, ⟨cpuF, memP, memU, memT, dkP, dkT, dkU, l1, l5, l15⟩,
              dockerMinecraft dockerProbe, none⟩,
              [.dateCmd, .sshCommand, .sshCommand, .sshCommand, .sshCommand,
                .sshCommand])

/- ## Backup flow (`prefect/flows/backup_flow.py`)
Prefect tasks called inside a flow propagate their exceptions to the flow.
An SSH connection failure raises out of any RemoteExecutor task, and
`download_backup` raises when the file transfer fails; Python `try/finally`
is modelled explicitly. -/

/-- Steps of the backup flows, in invocation order. -/
inductive Step where
  | checkStatus
  | stopServer
  | createBackup
  | downloadBackup
  | uploadS3
  | cleanupRemote
  | createSnapshots
  | cleanupSnapshots
  | sendDiscord
  | startServer
  deriving Repr, DecidableEq

/-- Environment of one `backup_flow` run (`flows/backup_flow.py`): each
task's outcome. `Except.error` models the task raising — for the
RemoteExecutor tasks an SSH connection failure; S3 upload and the Discord
task catch their own exceptions into booleans. -/
structure BackupEnv where
  checkStatus : Except String Bool
  stopServer : Except String Bool
  createBackup : Except String (Option String)
  downloadFile : Except String Bool
  uploadOk : Bool
  cleanupRemote : Except String Bool
  startServer : Except String Bool
  deriving Repr

/-- `download_backup` task: raises when `download_file` reports failure,
otherwise returns the local path of the downloaded archive. -/
def download_backup (remotePath : String) (downloadFile : Except String Bool) :
    Except String String :=
  match downloadFile with
  | .error e => .error e
  | .ok true => .ok ("/tmp/local/" ++ remotePath)
  | .ok false => .error ("Failed to download backup file from " ++ remotePath)

/-- `upload_backup_to_s3` task: raises on a falsy backup path, otherwise
catches every upload exception into a boolean. -/
def upload_backup_to_s3 (backupPath : String) (uploadOk : Bool) : Except String Bool :=
  if backupPath == "" then .error "Could not find backup path"
  else .ok uploadOk

/-- The `try` body of `backup_flow`: stop-if-running, create, download,
upload plus remote cleanup, status computation, Discord notification.
Returns the steps invoked and either the status string or the first
uncaught exception. -/
def backup_flow_body (env : BackupEnv) (serverWasRunning : Bool) :
    List Step × Except String String :=
  let stopSteps : List Step := if serverWasRunning then [Step.stopServer] else []
  match (if serverWasRunning then env.stopServer else Except.ok true) with
  | .error e => (stopSteps, .error e)
  | .ok _ =>
    match env.createBackup with
    | .error e => (stopSteps ++ [Step.createBackup], .error e)
    | .ok none =>
      (stopSteps ++ [Step.createBackup, Step.sendDiscord], .ok "FAILURE")
    | .ok (some rpath) =>
      match download_backup rpath env.downloadFile with
      | .error e => (stopSteps ++ [Step.createBackup, Step.downloadBackup], .error e)
      | .ok lpath =>
        match upload_backup_to_s3 lpath env.uploadOk with
        | .error e =>
          (stopSteps ++ [Step.createBackup, Step.downloadBackup, Step.uploadS3], .error e)
        | .ok s3Success =>
          match env.cleanupRemote with
          | .error e =>
            (stopSteps ++ [Step.createBackup, Step.downloadBackup, Step.uploadS3,
              Step.cleanupRemote], .error e)
          | .ok _ =>
            let status := if s3Success then "SUCCESS" else "FAILURE"
            (stopSteps ++ [Step.createBackup, Step.downloadBackup, Step.uploadS3,
              Step.cleanupRemote, Step.sendDiscord], .ok status)

/-- `backup_flow` (`flows/backup_flow.py`): status check, then the pipeline
inside `try` whose `finally` restarts the server iff it was observed
running; an exception raised by the restart replaces the body's outcome, as
in Python. -/
def backup_flow (env : BackupEnv) : List Step × Except String String :=
  match env.checkStatus with
  | .error e => ([Step.checkStatus], .error e)
  | .ok serverWasRunning =>
    let body := backup_flow_body env serverWasRunning
    if serverWasRunning then
      let result := match env.startServer with
        | .error e => Except.error e
        | .ok _ => body.2
      (Step.checkStatus :: body.1 ++ [Step.startServer], result)
    else
      (Step.checkStatus :: body.1, body.2)

/- ## Snapshot flow (`prefect/snapshot_flow.py`)
Every task of this variant catches its own exceptions, so inside the
pipeline nothing raises; the status check can still raise (a missing docker
binary propagates out of `subprocess.run` uncaught). -/

/-- Environment of one `snapshot_flow.py` `backup_flow` run. -/
structure SnapshotFlowEnv where
  checkStatus : Except String Bool
  stopOk : Bool
  backupPath : Option String
  uploadOk : Bool
  snapshotOk : Bool
  deletedCount : ℕ
  notifyOk : Bool
  startOk : Bool
  deriving Repr

/-- `backup_flow` (`snapshot_flow.py`): stop-if-running, world backup, S3
upload when the archive exists, Lightsail snapshots, retention cleanup,
Discord notification, restart in `finally` iff observed running. -/
def snapshot_backup_flow (env : SnapshotFlowEnv) : List Step × Except String String :=
  match env.checkStatus with
  | .error e => ([Step.checkStatus], .error e)
  | .ok serverWasRunning =>
    let stopSteps : List Step := if serverWasRunning then [Step.stopServer] else []
    let backupSuccess := env.backupPath.isSome
    let s3Steps : List Step := if backupSuccess then [Step.uploadS3] else []
    let s3Success := backupSuccess && env.uploadOk
    let status := if s3Success && env.snapshotOk then "SUCCESS"
      else if s3Success || env.snapshotOk then "PARTIAL SUCCESS"
      else "FAILURE"
    (Step.checkStatus :: stopSteps ++ [Step.createBackup] ++ s3Steps ++
      [Step.createSnapshots, Step.cleanupSnapshots, Step.sendDiscord] ++
      (if serverWasRunning then [Step.startServer] else []), .ok status)

/- ## Snapshot retention (`snapshot_flow.py`, `cleanup_old_snapshots`)
Timestamps are seconds since the epoch (UTC); `timedelta(days=n)` is
`n * 86400` seconds. -/

/-- One Lightsail instance snapshot record. -/
structure InstanceSnapshot where
  name : String
  fromInstanceName : String
  createdAt : ℤ
  deriving Repr, DecidableEq

/-- One Lightsail disk snapshot record. -/
structure DiskSnapshot where
  name : String
  fromDiskName : String
  createdAt : ℤ
  deriving Repr, DecidableEq

/-- `cleanup_old_snapshots`: deletes every instance snapshot of the
configured instance and every disk snapshot of the configured disk whose
creation time is strictly before `now - retention_days`, per snapshot;
returns the deleted snapshots and their count. -/
def cleanup_old_snapshots (now : ℤ) (instanceName diskName : String)
    (retentionDays : ℤ) (instanceSnapshots : List InstanceSnapshot)
    (diskSnapshots : List DiskSnapshot) :
    List InstanceSnapshot × List DiskSnapshot × ℕ :=
  let cutoff := now - retentionDays * 86400
  let deletedInstance := instanceSnapshots.filter
    (fun s => s.fromInstanceName == instanceName && decide (s.createdAt < cutoff))
  let deletedDisk := diskSnapshots.filter
    (fun s => s.fromDiskName == diskName && decide (s.createdAt < cutoff))
  (deletedInstance, deletedDisk, deletedInstance.length + deletedDisk.length)

/-- Whether a flow outcome is a raised exception seen by the caller. -/
def raised {α : Type} : Except String α → Bool
  | .error _ => true
  | .ok _ => false

/- ## Supporting lemmas -/

/-- `splitOnChar` always yields at least one chunk. -/
theorem splitOnChar_ne_nil (sep : Char) (l : List Char) : splitOnChar sep l ≠ [] := by
  cases l with
  | nil => simp [splitOnChar]
  | cons c cs =>
    rw [splitOnChar]
    rcases hcs : splitOnChar sep cs with _ | ⟨r', rs'⟩
    · simp
    · by_cases hc : c = sep <;> simp [hc]

/-- Extending a prefix on both sides with the same head character. -/
theorem isPre_cons_cons {α : Type} (c : α) {r l : List α} (h : r <+: l) :
    c :: r <+: c :: l := by
  rcases h with ⟨t, ht⟩
  exact ⟨t, by rw [List.cons_append, ht]⟩

/-- An infix of a tail is an infix of the whole list. -/
theorem isSub_cons_of_isSub {α : Type} (c : α) {r l : List α} (h : r <:+: l) :
    r <:+: c :: l := by
  rcases h with ⟨s, t, hst⟩
  exact ⟨c :: s, t, by rw [← hst]; simp⟩

/-- The head chunk produced by `splitOnChar` is a prefix of the input. -/
theorem splitOnChar_head_isPre (sep : Char) (l : List Char) (r : List Char)
    (rs : List (List Char)) (h : splitOnChar sep l = r :: rs) : r <+: l := by
  induction l generalizing r rs with
  | nil =>
    simp [splitOnChar] at h
    simp [h.1]
  | cons c cs ih =>
    rw [splitOnChar] at h
    rcases hcs : splitOnChar sep cs with _ | ⟨r', rs'⟩
    · exact absurd hcs (splitOnChar_ne_nil sep cs)
    · rw [hcs] at h
      by_cases hc : c = sep
      · simp [hc] at h
        simp [h.1]
      · simp [hc] at h
        rcases h with ⟨h1, _⟩
        subst h1
        exact isPre_cons_cons c (ih r' rs' hcs)

/-- Every chunk produced by `splitOnChar` is an infix of the input. -/
theorem mem_splitOnChar_isSub (sep : Char) (l : List Char) (r : List Char)
    (h : r ∈ splitOnChar sep l) : r <:+: l := by
  induction l with
  | nil =>
    simp [splitOnChar] at h
    simp [h]
  | cons c cs ih =>
    rw [splitOnChar] at h
    rcases hcs : splitOnChar sep cs with _ | ⟨r', rs'⟩
    · exact absurd hcs (splitOnChar_ne_nil sep cs)
    · rw [hcs] at h
      by_cases hc : c = sep
      · simp [hc] at h
        rcases h with h | h
        · simp [h]
        · exact isSub_cons_of_isSub c (ih (hcs ▸ List.mem_cons.mpr h))
      · simp [hc] at h
        rcases h with h | h
        · subst h
          exact (isPre_cons_cons c (splitOnChar_head_isPre sep cs r' rs' hcs)).isInfix
        · exact isSub_cons_of_isSub c (ih (hcs ▸ List.mem_cons_of_mem r' h))

/-- Trimming yields an infix of the original character list. -/
theorem trimChars_isSub (l : List Char) : trimChars l <:+: l := by
  unfold trimChars
  have h1 : l.dropWhile Char.isWhitespace <:+ l := List.dropWhile_suffix _
  have h2 : ((l.dropWhile Char.isWhitespace).reverse.dropWhile Char.isWhitespace).reverse <+:
      l.dropWhile Char.isWhitespace := by
    rw [← List.reverse_suffix]
    simpa using List.dropWhile_suffix (l := (l.dropWhile Char.isWhitespace).reverse)
      (p := Char.isWhitespace)
  exact h2.isInfix.trans h1.isInfix

/-- Evaluation rule for `pyRound2` when the fractional part is below one
half. -/
theorem pyRound2_eq_down (q : ℚ) (f : ℤ) (h1 : (f : ℚ) ≤ q * 100)
    (h2 : q * 100 - f < 1/2) : pyRound2 q = (f : ℚ) / 100 := by
  have hf : ⌊q * 100⌋ = f := by
    rw [Int.floor_eq_iff]
    constructor
    · exact h1
    · linarith
  unfold pyRound2
  rw [hf]
  simp only []
  rw [if_pos h2]

/-- Evaluation rule for `pyRound2` when the fractional part is above one
half. -/
theorem pyRound2_eq_up (q : ℚ) (f : ℤ) (h1 : (f : ℚ) ≤ q * 100)
    (h2 : q * 100 - f > 1/2) (h3 : q * 100 < (f : ℚ) + 1) :
    pyRound2 q = ((f : ℚ) + 1) / 100 := by
  have hf : ⌊q * 100⌋ = f := by
    rw [Int.floor_eq_iff]
    constructor
    · exact h1
    · linarith
  unfold pyRound2
  rw [hf]
  simp only []
  rw [if_neg (by linarith), if_pos h2]

/-- An exact parsed-name match makes the name an infix of the stripped
output: each parsed name is a trimmed chunk of the newline-split trimmed
output, hence an infix of it. -/
theorem exactNameRunning_data_isSub (out containerName : String)
    (h : exactNameRunning out containerName = true) :
    containerName.data <:+: trimChars out.data := by
  unfold exactNameRunning at h
  rw [List.any_eq_true] at h
  rcases h with ⟨n, hn, hbeq⟩
  rw [beq_iff_eq] at hbeq
  subst hbeq
  unfold parseNames at hn
  rw [List.mem_filter] at hn
  rcases hn with ⟨hn, _⟩
  rw [List.mem_map] at hn
  rcases hn with ⟨line, hline, hstrip⟩
  unfold pySplitLines at hline
  rw [List.mem_map] at hline
  rcases hline with ⟨chunk, hchunk, hmk⟩
  subst hmk
  subst hstrip
  have h1 : trimChars chunk <:+: chunk := trimChars_isSub chunk
  have h2 : chunk <:+: trimChars out.data := mem_splitOnChar_isSub '\n' _ chunk hchunk
  exact (h1.trans h2 : trimChars chunk <:+: trimChars out.data)

/-- The restart step never occurs inside the `try` body. -/
theorem startServer_not_mem_body (env : BackupEnv) (b : Bool) :
    Step.startServer ∉ (backup_flow_body env b).1 := by
  unfold backup_flow_body download_backup upload_backup_to_s3
  cases b <;> repeat' split
  all_goals intro hmem
  all_goals simp_all

/- ## Claims -/

/-- Claim C3: for every invocation of the remote command runner with a
timeout, a timeout expiry yields a failure result with the synthetic exit
code -1 instead of hanging or raising to the caller, and a command that
completes with a non-zero exit status yields a result carrying that exit
status with the success flag false, again without throwing (the embedding
is total: every subprocess outcome maps to a `RemoteCommandResult`). -/
theorem c3_run_ssh_command_failure_results (t : Nat) (rc : Int) (out err : String)
    (h : rc ≠ 0) :
    (run_ssh_command .timedout t).returncode = -1 ∧
    (run_ssh_command .timedout t).success = false ∧
    (run_ssh_command (.completed rc out err) t).returncode = rc ∧
    (run_ssh_command (.completed rc out err) t).success = false := by
  refine ⟨rfl, rfl, rfl, ?_⟩
  simp [run_ssh_command]
  exact h

/-- Concrete instantiation of `c3_run_ssh_command_failure_results`. -/
theorem c3_run_ssh_command_failure_results_witness :
    (2 : Int) ≠ 0 ∧
    ((run_ssh_command .timedout 15).returncode = -1 ∧
     (run_ssh_command .timedout 15).success = false ∧
     (run_ssh_command (.completed 2 "" "grep: no match") 15).returncode = 2 ∧
     (run_ssh_command (.completed 2 "" "grep: no match") 15).success = false) :=
  ⟨by decide, c3_run_ssh_command_failure_results 15 2 "" "grep: no match" (by decide)⟩

/-- Claim C1: in both backup orchestrator variants, the restart step is
invoked before the flow returns exactly when the status check at entry
returned True, regardless of which later pipeline step fails or raises. -/
theorem c1_restart_iff_observed_running (env : BackupEnv) (senv : SnapshotFlowEnv) :
    (Step.startServer ∈ (backup_flow env).1 ↔ env.checkStatus = Except.ok true) ∧
    (Step.startServer ∈ (snapshot_backup_flow senv).1 ↔
      senv.checkStatus = Except.ok true) := by
  constructor
  · unfold backup_flow
    rcases hc : env.checkStatus with e | b
    · simp
    · cases b
      · simp [startServer_not_mem_body env false]
      · simp
  · unfold snapshot_backup_flow
    rcases hc : senv.checkStatus with e | b
    · simp
    · cases b <;> by_cases hb : senv.backupPath.isSome <;> simp [hb]

/-- Claim C7: the retention cleanup deletes a snapshot of the configured
instance (or disk) exactly when its creation timestamp is strictly older
than now minus `retention_days`, per snapshot; with retention 30 days a
31-day-old snapshot is deleted and a 29-day-old one retained. -/
theorem c7_retention_cutoff (now : ℤ) (iname dname : String) (ret : ℤ)
    (instSnaps : List InstanceSnapshot) (diskSnaps : List DiskSnapshot)
    (s : InstanceSnapshot) (d : DiskSnapshot) :
    (s ∈ (cleanup_old_snapshots now iname dname ret instSnaps diskSnaps).1 ↔
      s ∈ instSnaps ∧ s.fromInstanceName = iname ∧ s.createdAt < now - ret * 86400) ∧
    (d ∈ (cleanup_old_snapshots now iname dname ret instSnaps diskSnaps).2.1 ↔
      d ∈ diskSnaps ∧ d.fromDiskName = dname ∧ d.createdAt < now - ret * 86400) ∧
    (⟨"old", "srv", -(31 * 86400)⟩ : InstanceSnapshot) ∈
      (cleanup_old_snapshots 0 "srv" "data" 30
        [⟨"old", "srv", -(31 * 86400)⟩, ⟨"new", "srv", -(29 * 86400)⟩] []).1 ∧
    (⟨"new", "srv", -(29 * 86400)⟩ : InstanceSnapshot) ∉
      (cleanup_old_snapshots 0 "srv" "data" 30
        [⟨"old", "srv", -(31 * 86400)⟩, ⟨"new", "srv", -(29 * 86400)⟩] []).1 := by
  refine ⟨?_, ?_, by decide, by decide⟩
  · simp [cleanup_old_snapshots, List.mem_filter, and_assoc]
  · simp [cleanup_old_snapshots, List.mem_filter, and_assoc]

/-- Claim C10: in non-simulated mode the world-size getter always returns a
value (never `None`, never raises, its embedding being total), and on every
failure path — non-200 response, missing `world_size_gb` field, raised
exception — that value is the fixed constant 12.75 GB. -/
theorem c10_get_world_size_default (resp : HttpOutcome MinecraftApiBody) :
    ((get_world_size false resp).1).isSome = true ∧
    ((match resp with
      | .exn _ => True
      | .resp st body => st ≠ 200 ∨ body.world_size_gb = none) →
      (get_world_size false resp).1 = some 12.75) := by
  rcases resp with ⟨st, body⟩ | m
  · constructor
    · by_cases hst : st = 200
      · subst hst
        rcases hb : body.world_size_gb with _ | v <;> simp [get_world_size, hb]
      · simp [get_world_size, hst]
    · intro h
      rcases h with hst | hnone
      · simp [get_world_size, hst]
      · by_cases hst : st = 200
        · subst hst
          simp [get_world_size, hnone]
        · simp [get_world_size, hst]
  · exact ⟨by simp [get_world_size], fun _ => by simp [get_world_size]⟩

/-- Concrete instantiation of `c10_get_world_size_default` at an HTTP 500
response. -/
theorem c10_get_world_size_default_witness :
    ((get_world_size false (.resp 500 ⟨"stopped", none, none, none, none⟩)).1).isSome
      = true ∧
    (get_world_size false (.resp 500 ⟨"stopped", none, none, none, none⟩)).1
      = some 12.75 :=
  ⟨(c10_get_world_size_default (.resp 500 ⟨"stopped", none, none, none, none⟩)).1,
   (c10_get_world_size_default (.resp 500 ⟨"stopped", none, none, none, none⟩)).2
     (Or.inl (by decide))⟩

/-- Claim C4 fails on the code in one clause: the remote-variant metrics
collector, even in simulated mode, still attempts a call — the local `date`
subprocess for its timestamp — so its effect list is not empty. -/
theorem c4_simulated_date_subprocess_counterexample :
    (get_system_metrics_remote true "2025-05-05T00:00:00+0000"
      .failed .failed .failed .failed none).2 = [Effect.dateCmd] ∧
    (get_system_metrics_remote true "2025-05-05T00:00:00+0000"
      .failed .failed .failed .failed none).2 ≠ [] := by
  constructor
  · rfl
  · decide

/-- Claim C4 amended: with the simulated-mode flag set, the container status
resolver returns True and both metrics collectors return their fixed
simulated schemas, for every value of the remaining configuration, and no
remote or container-engine call (SSH, HTTP, Docker) is attempted; the
remote-variant collector does, however, still run one local `date`
subprocess for its timestamp, which is its only attempted call. -/
theorem c4_amended_simulated_no_remote_calls (name : String)
    (env : ContainerCheckEnv) (hsim : env.simulatedMode = true) (now dateOut : String)
    (sysResp : HttpOutcome SystemApiBody) (mcResp : HttpOutcome MinecraftApiBody)
    (cpuProbe : ProbeOutcome ℚ) (memProbe : ProbeOutcome (ℤ × ℤ))
    (diskProbe : ProbeOutcome (ℚ × String × String))
    (loadProbe : ProbeOutcome (ℚ × ℚ × ℚ)) (dockerProbe : Option String) :
    check_container_status name env = (true, []) ∧
    get_system_metrics true now sysResp mcResp =
      (⟨now, simulatedSystemStats, some simulatedMinecraftStats, none⟩, []) ∧
    get_system_metrics_remote true dateOut cpuProbe memProbe diskProbe loadProbe
      dockerProbe =
      (⟨dateOut, simulatedRemoteSystemStats, some simulatedRemoteMinecraftStats,
        none⟩, [Effect.dateCmd]) ∧
    ((get_system_metrics_remote true dateOut cpuProbe memProbe diskProbe loadProbe
      dockerProbe).2.filter Effect.isRemoteCall) = [] := by
  refine ⟨?_, rfl, rfl, rfl⟩
  unfold check_container_status
  rw [hsim]
  simp

/-- Concrete instantiation of `c4_amended_simulated_no_remote_calls`. -/
theorem c4_amended_simulated_no_remote_calls_witness :
    check_container_status "minecraft-server"
      ⟨true, some "10.0.0.5", some "ec2-user", none, true, none, .timedout, none, none⟩
      = (true, []) ∧
    get_system_metrics true "2025-05-05T00:00:00"
      (.exn "connection refused") (.exn "connection refused") =
      (⟨"2025-05-05T00:00:00", simulatedSystemStats,
        some simulatedMinecraftStats, none⟩, []) ∧
    get_system_metrics_remote true "2025-05-05T00:00:00+0000"
      .failed .failed .failed .failed none =
      (⟨"2025-05-05T00:00:00+0000", simulatedRemoteSystemStats,
        some simulatedRemoteMinecraftStats, none⟩, [Effect.dateCmd]) ∧
    ((get_system_metrics_remote true "2025-05-05T00:00:00+0000"
      .failed .failed .failed .failed none).2.filter Effect.isRemoteCall) = [] :=
  c4_amended_simulated_no_remote_calls "minecraft-server"
    ⟨true, some "10.0.0.5", some "ec2-user", none, true, none, .timedout, none, none⟩
    rfl "2025-05-05T00:00:00" "2025-05-05T00:00:00+0000"
    (.exn "connection refused") (.exn "connection refused")
    .failed .failed .failed .failed none

/-- Claim C8: when the system-metrics endpoint answers non-200, the metrics
collector returns the all-zero default schema with the `error` field
populated, without raising, and the monitoring run still proceeds to the
notification step and finishes with SUCCESS. -/
theorem c8_metrics_api_error_degrades (env : MonitoringEnv) (st : ℕ)
    (body : SystemApiBody)
    (hsim : env.simulatedMode = false)
    (hweb : env.webhookEnabled = true)
    (hresp : env.systemResp = .resp st body)
    (hst : st ≠ 200) :
    (server_monitoring_flow env).metrics.system = zeroSystemStats ∧
    (server_monitoring_flow env).metrics.minecraft = none ∧
    ((server_monitoring_flow env).metrics.error).isSome = true ∧
    MonStep.sendDiscord ∈ (server_monitoring_flow env).steps ∧
    (server_monitoring_flow env).status = "SUCCESS" := by
  unfold server_monitoring_flow
  rcases hmc : env.minecraftResp with ⟨mst, mbody⟩ | m <;>
    simp [get_system_metrics, hsim, hresp, hmc, hst, hweb]

/-- Concrete instantiation of `c8_metrics_api_error_degrades` at an HTTP 500
system-metrics response. -/
theorem c8_metrics_api_error_degrades_witness :
    (server_monitoring_flow ⟨false, "2025-05-05T00:00:00",
        .resp 200 ⟨"running", none, none, none, none⟩,
        .resp 500 ⟨0, 0, 0, 0, 0, 0, 0, none, none⟩,
        .resp 200 ⟨"running", none, none, none, none⟩,
        .resp 200 ⟨"running", none, none, none, some 1⟩,
        true, "https://discord.example/webhook", true⟩).metrics.system
      = zeroSystemStats ∧
    (server_monitoring_flow ⟨false, "2025-05-05T00:00:00",
        .resp 200 ⟨"running", none, none, none, none⟩,
        .resp 500 ⟨0, 0, 0, 0, 0, 0, 0, none, none⟩,
        .resp 200 ⟨"running", none, none, none, none⟩,
        .resp 200 ⟨"running", none, none, none, some 1⟩,
        true, "https://discord.example/webhook", true⟩).metrics.minecraft = none ∧
    ((server_monitoring_flow ⟨false, "2025-05-05T00:00:00",
        .resp 200 ⟨"running", none, none, none, none⟩,
        .resp 500 ⟨0, 0, 0, 0, 0, 0, 0, none, none⟩,
        .resp 200 ⟨"running", none, none, none, none⟩,
        .resp 200 ⟨"running", none, none, none, some 1⟩,
        true, "https://discord.example/webhook", true⟩).metrics.error).isSome = true ∧
    MonStep.sendDiscord ∈ (server_monitoring_flow ⟨false, "2025-05-05T00:00:00",
        .resp 200 ⟨"running", none, none, none, none⟩,
        .resp 500 ⟨0, 0, 0, 0, 0, 0, 0, none, none⟩,
        .resp 200 ⟨"running", none, none, none, none⟩,
        .resp 200 ⟨"running", none, none, none, some 1⟩,
        true, "https://discord.example/webhook", true⟩).steps ∧
    (server_monitoring_flow ⟨false, "2025-05-05T00:00:00",
        .resp 200 ⟨"running", none, none, none, none⟩,
        .resp 500 ⟨0, 0, 0, 0, 0, 0, 0, none, none⟩,
        .resp 200 ⟨"running", none, none, none, none⟩,
        .resp 200 ⟨"running", none, none, none, some 1⟩,
        true, "https://discord.example/webhook", true⟩).status = "SUCCESS" :=
  c8_metrics_api_error_degrades _ 500 ⟨0, 0, 0, 0, 0, 0, 0, none, none⟩
    rfl rfl rfl (by decide)

/-- Helper for claim C2: when no task raises an SSH connection error and the
download (if reached) succeeds, the `try` body completes without raising and
invokes the Discord notification. -/
theorem backup_flow_body_no_raise (env : BackupEnv) (b : Bool) (sb clb : Bool)
    (cp : Option String)
    (hstop : env.stopServer = Except.ok sb)
    (hcreate : env.createBackup = Except.ok cp)
    (hcleanup : env.cleanupRemote = Except.ok clb)
    (hdownload : env.downloadFile = Except.ok true ∨ cp = none) :
    raised (backup_flow_body env b).2 = false ∧
    Step.sendDiscord ∈ (backup_flow_body env b).1 := by
  have hne : ∀ p : String, (("/tmp/local/" ++ p) == "") = false := by
    intro p
    rw [beq_eq_false_iff_ne]
    intro hcontra
    have h2 : ("/tmp/local/" ++ p).data = "".data := congrArg String.data hcontra
    rw [String.data_append] at h2
    simp at h2
  rcases hdownload with hd | hcp
  · cases b <;> cases cp <;>
      simp [backup_flow_body, download_backup, upload_backup_to_s3,
        hstop, hcreate, hcleanup, hd, raised, hne]
  · subst hcp
    cases b <;> simp [backup_flow_body, hstop, hcreate, raised]

/-- Claim C2 fails on the code: with the backup created and the download
reporting `succeeded=False`, `download_backup` raises, the flow re-raises
to its caller, and the Discord notification step is never invoked. -/
theorem c2_download_failure_raises_counterexample :
    raised (backup_flow ⟨Except.ok false, Except.ok true,
        Except.ok (some "/tmp/minecraft-world-backup.tar.gz"), Except.ok false, true,
        Except.ok true, Except.ok true⟩).2 = true ∧
    Step.sendDiscord ∉ (backup_flow ⟨Except.ok false, Except.ok true,
        Except.ok (some "/tmp/minecraft-world-backup.tar.gz"), Except.ok false, true,
        Except.ok true, Except.ok true⟩).1 := by
  constructor
  · rfl
  · decide

/-- Claim C2 amended: a remote command result with `succeeded=False` in the
stop, create-backup, upload, remote-cleanup or notification steps never
makes the orchestrator raise, and the run still reaches the Discord
notification step; a download result with `succeeded=False`, however, makes
`download_backup` raise, the flow re-raises to its caller (after the
restart step), and the notification is skipped. -/
theorem c2_amended_notifier_reached (env : BackupEnv) (cb sb clb stb : Bool)
    (cp : Option String)
    (hcheck : env.checkStatus = Except.ok cb)
    (hstop : env.stopServer = Except.ok sb)
    (hcreate : env.createBackup = Except.ok cp)
    (hcleanup : env.cleanupRemote = Except.ok clb)
    (hstart : env.startServer = Except.ok stb)
    (hdownload : env.downloadFile = Except.ok true ∨ cp = none) :
    raised (backup_flow env).2 = false ∧
    Step.sendDiscord ∈ (backup_flow env).1 := by
  have hb := backup_flow_body_no_raise env cb sb clb cp hstop hcreate hcleanup hdownload
  unfold backup_flow
  rw [hcheck]
  cases cb
  · simpa using hb
  · simp only [if_pos]
    rw [hstart]
    constructor
    · exact hb.1
    · simp [hb.2]

/-- Concrete instantiation of `c2_amended_notifier_reached`: server running,
stop and upload both report failure, yet the flow returns without raising
and the Discord step runs. -/
theorem c2_amended_notifier_reached_witness :
    raised (backup_flow ⟨Except.ok true, Except.ok false,
        Except.ok (some "/tmp/minecraft-world-backup.tar.gz"), Except.ok true, false,
        Except.ok true, Except.ok true⟩).2 = false ∧
    Step.sendDiscord ∈ (backup_flow ⟨Except.ok true, Except.ok false,
        Except.ok (some "/tmp/minecraft-world-backup.tar.gz"), Except.ok true, false,
        Except.ok true, Except.ok true⟩).1 :=
  c2_amended_notifier_reached _ true false true true
    (some "/tmp/minecraft-world-backup.tar.gz") rfl rfl rfl rfl rfl (Or.inl rfl)

/-- Claim C5 fails on the code: with no local socket and the SSH check
failing for an ordinary reason (connection timed out, success flag false) —
every detection path inconclusive — the resolver returns False, not True. -/
theorem c5_ssh_failure_returns_false_counterexample :
    (check_container_status "minecraft-server"
      ⟨false, some "10.0.0.5", some "ec2-user", none, false, none,
        .completed 255 "" "ssh: connect to host 10.0.0.5 port 22: Connection timed out",
        none, none⟩).1 = false := by
  decide

/-- Claim C5 amended: with the local socket path not applicable and a
truthy remote host, the resolver returns False when the SSH configuration
is incomplete (no truthy user); with complete configuration it falls back
to True only when the SSH client binary itself is missing (the failure
marker appears in stderr) and the Docker-socket fallback is unavailable or
itself failed; an SSH check that fails for any other reason (success flag
false, no marker) makes the resolver return False rather than True. -/
theorem c5_amended_last_resort_only_for_missing_ssh_client (name : String)
    (env : ContainerCheckEnv)
    (hsim : env.simulatedMode = false)
    (hcfg : env.sshConfig = none)
    (hhost : env.host ≠ some "localhost")
    (hht : pyTruthy env.host = true) :
    (pyTruthy env.user = false → (check_container_status name env).1 = false) ∧
    (pyTruthy env.user = true →
      pyIn missingSshMarker (run_ssh_command env.sshOutcome 15).stderr = true →
      (env.dockerSockExists = false ∨
        dockerSocketDecision name env.dockerFallback = none) →
      (check_container_status name env).1 = true) ∧
    (pyTruthy env.user = true →
      (run_ssh_command env.sshOutcome 15).success = false →
      pyIn missingSshMarker (run_ssh_command env.sshOutcome 15).stderr = false →
      (check_container_status name env).1 = false) := by
  have hbeq : (env.host == some "localhost") = false := by
    rw [beq_eq_false_iff_ne]
    exact hhost
  refine ⟨?_, ?_, ?_⟩
  · intro hut
    unfold check_container_status
    simp [hsim, hcfg, hht, hut, hbeq]
  · intro hut hmarker hfb
    unfold check_container_status
    rcases hfb with hsock | hdec
    · simp [hsim, hcfg, hht, hut, hbeq, hmarker, hsock]
    · cases hsock : env.dockerSockExists
      · simp [hsim, hcfg, hht, hut, hbeq, hmarker, hsock]
      · simp [hsim, hcfg, hht, hut, hbeq, hmarker, hsock, hdec]
  · intro hut hfail hmarker
    unfold check_container_status
    simp [hsim, hcfg, hht, hut, hbeq, hmarker, hfail]

/-- Concrete instantiation of
`c5_amended_last_resort_only_for_missing_ssh_client`: a missing user yields
False, a missing SSH client with the socket fallback present but failing
yields True, and an ordinary connection failure yields False. -/
theorem c5_amended_last_resort_witness :
    (check_container_status "minecraft-server"
      ⟨false, some "10.0.0.5", none, none, false, none,
        .completed 0 "minecraft-server" "", none, none⟩).1 = false ∧
    (check_container_status "minecraft-server"
      ⟨false, some "10.0.0.5", some "ec2-user", none, true, none,
        .exn ("[Errno 2] No such file or directory: " ++ apos ++ "ssh" ++ apos),
        some (1, "", "permission denied"), none⟩).1 = true ∧
    (check_container_status "minecraft-server"
      ⟨false, some "10.0.0.5", some "ec2-user", none, false, none,
        .completed 255 "" "ssh: connect to host 10.0.0.5 port 22: Connection refused",
        none, none⟩).1 = false :=
  ⟨(c5_amended_last_resort_only_for_missing_ssh_client "minecraft-server"
      ⟨false, some "10.0.0.5", none, none, false, none,
        .completed 0 "minecraft-server" "", none, none⟩
      rfl rfl (by decide) rfl).1 rfl,
   (c5_amended_last_resort_only_for_missing_ssh_client "minecraft-server"
      ⟨false, some "10.0.0.5", some "ec2-user", none, true, none,
        .exn ("[Errno 2] No such file or directory: " ++ apos ++ "ssh" ++ apos),
        some (1, "", "permission denied"), none⟩
      rfl rfl (by decide) rfl).2.1 rfl (by decide) (Or.inr (by decide)),
   (c5_amended_last_resort_only_for_missing_ssh_client "minecraft-server"
      ⟨false, some "10.0.0.5", some "ec2-user", none, false, none,
        .completed 255 "" "ssh: connect to host 10.0.0.5 port 22: Connection refused",
        none, none⟩
      rfl rfl (by decide) rfl).2.2 rfl rfl (by decide)⟩

/-- Claim C6 fails on the code: the metrics-API world-size conversion
returns the unrounded quotient, so at 964925107 bytes its GB figure is not
`B / 1073741824` rounded to 2 decimals (which would be 0.90). -/
theorem c6_unrounded_world_size_counterexample :
    simple_fix_world_size_gb 964925107 ≠
      pyRound2 ((964925107 : ℚ) / 1073741824) := by
  have h : pyRound2 ((964925107 : ℚ) / 1073741824) = ((89 : ℤ) : ℚ) / 100 + 1 / 100 := by
    rw [pyRound2_eq_up ((964925107 : ℚ) / 1073741824) 89 (by norm_num) (by norm_num)
      (by norm_num)]
    push_cast
    ring
  rw [h]
  unfold simple_fix_world_size_gb
  norm_num

/-- Claim C6 amended: every size conversion divides by the binary units
1048576 (MB) and 1073741824 (GB), never decimal units; the directory-size
and monitoring-flow figures are rounded to 2 decimals, while the
metrics-API world-size figures are the unrounded quotients. -/
theorem c6_amended_binary_unit_conversions (b : ℕ) (bytes : ℚ) :
    get_directory_size_gb b = pyRound2 ((b : ℚ) / 1073741824) ∧
    monitoring_bytes_to_mb bytes = pyRound2 (bytes / 1048576) ∧
    monitoring_bytes_to_gb bytes = pyRound2 (bytes / 1073741824) ∧
    simple_fix_world_size_mb b = (b : ℚ) / 1048576 ∧
    simple_fix_world_size_gb b = (b : ℚ) / 1073741824 := by
  refine ⟨?_, ?_, ?_, ?_, ?_⟩ <;>
    norm_num [get_directory_size_gb, monitoring_bytes_to_mb, monitoring_bytes_to_gb,
      simple_fix_world_size_mb, simple_fix_world_size_gb]

/-- Claim C9 fails on the code: on the SSH path and in
`RemoteExecutor.check_docker_container` the decision is substring
containment, so an output listing only `minecraft-server-2` does count
`minecraft-server` as running (while the exact-match parse used by the
Docker-socket paths rejects it). -/
theorem c9_substring_match_counterexample :
    RemoteExecutor.check_docker_container "minecraft-server"
      (.completed 0 "minecraft-server-2\n" "") = true ∧
    exactNameRunning "minecraft-server-2\n" "minecraft-server" = false ∧
    (check_container_status "minecraft-server"
      ⟨false, some "10.0.0.5", some "ec2-user", none, false, none,
        .completed 0 "f2a41  itzg/minecraft-server  Up 2 days  minecraft-server-2" "",
        none, none⟩).1 = true := by
  refine ⟨by decide, by decide, by decide⟩

/-- Claim C9 amended: the Docker-socket paths decide by exact name equality
against the parsed name list, while the SSH path and `RemoteExecutor`
decide by substring containment — a strictly weaker test: every exactly
listed name also counts as running there, but outputs merely containing the
name count as well. -/
theorem c9_amended_substring_weaker_than_exact (out name : String)
    (h : exactNameRunning out name = true) :
    RemoteExecutor.check_docker_container name (.completed 0 out "") = true ∧
    pyIn name out = true := by
  have h1 := exactNameRunning_data_isSub out name h
  constructor
  · unfold RemoteExecutor.check_docker_container RemoteExecutor.execute_command
    simp only []
    rw [if_neg (by decide)]
    unfold pyIn pyStrip
    simpa using h1
  · unfold pyIn
    exact decide_eq_true (h1.trans (trimChars_isSub out.data))

/-- Concrete instantiation of `c9_amended_substring_weaker_than_exact`. -/
theorem c9_amended_substring_weaker_witness :
    RemoteExecutor.check_docker_container "minecraft-server"
      (.completed 0 "minecraft-server\n" "") = true ∧
    pyIn "minecraft-server" "minecraft-server\n" = true :=
  c9_amended_substring_weaker_than_exact "minecraft-server\n" "minecraft-server"
    (by decide)
